import Mathlib

/-! # FluidLite MIDI codec of SDL-Mixer-X (`src/codecs/music_fluidlite.c`)

A shallow embedding of the codec. External collaborators (SDL, the FluidLite
synthesizer, the MIDI sequencer) are not executed: every call the codec makes
to them is recorded, in program order, in a list of `Call`s, and every value
they hand back is an input of the embedded function. C `int` values are `Int`;
pointers and opaque handles are `Nat` with `0` standing for `NULL`.
-/

namespace FluidLite

/-! ## Machine integers and doubles -/

/-- Largest value of a 32-bit C `int`. -/
def INT_MAX : Int := 2147483647

/-- Smallest value of a 32-bit C `int`. -/
def INT_MIN : Int := -2147483648

/-- Two's-complement reduction of an integer into the range of a 32-bit `int`. -/
def wrapInt (x : Int) : Int := (x + 2147483648) % 4294967296 - 2147483648

/-- Conversion of an argument to `uint8_t`. -/
def toUint8 (x : Nat) : Nat := x % 256

/-- Values of a C `double`, as far as comparison with zero is concerned: the
finite values (over-approximated by the rationals), the infinities and NaN. -/
inductive CDouble where
  | finite (q : ℚ)
  | posInf
  | negInf
  | nan
  deriving DecidableEq

/-- The C comparison `x > 0.0`. -/
def CDouble.gtZero : CDouble → Bool
  | .finite q => decide (0 < q)
  | .posInf => true
  | .negInf => false
  | .nan => false

/-- The C comparison `x <= 0.0`. -/
def CDouble.leZero : CDouble → Bool
  | .finite q => decide (q ≤ 0)
  | .posInf => false
  | .negInf => true
  | .nan => false

/-- Conversion `(int) x` of a finite double: truncation toward zero. -/
def truncToInt (q : ℚ) : Int := if 0 ≤ q then Int.floor q else Int.ceil q

/-- Binary logarithm of a positive natural number, rounded down, by repeated
halving; `fuel` bounds the number of halvings. -/
def floorLog2Aux : Nat → Nat → Nat
  | 0, _ => 0
  | fuel + 1, n => if n < 2 then 0 else floorLog2Aux fuel (n / 2) + 1

/-- Binary logarithm of a positive natural number, rounded down. -/
def floorLog2 (n : Nat) : Nat := floorLog2Aux n n

/-- Rounding of a rational to the nearest integer, ties going to the even one. -/
def roundHalfEven (q : ℚ) : Int :=
  let f := Int.floor q
  let r := q - (f : ℚ)
  if r < 1 / 2 then f else if 1 / 2 < r then f + 1 else if f % 2 = 0 then f else f + 1

/-- The binary exponent of a non-zero rational `x`: the integer `e` with
`2 ^ e ≤ |x| < 2 ^ (e + 1)`. -/
def binaryExponent (x : ℚ) : Int :=
  let e : Int := (floorLog2 x.num.natAbs : Int) - (floorLog2 x.den : Int)
  if (2 : ℚ) ^ e ≤ |x| then e else e - 1

/-- IEEE 754 rounding to nearest, ties to even, onto the binary floating-point
numbers with a significand of `p` bits. The exponent range is not bounded:
this is the rounding of the format wherever the result is a normal number. -/
def roundToPrecision (p : Nat) (x : ℚ) : ℚ :=
  if x = 0 then 0
  else
    let ulp : ℚ := (2 : ℚ) ^ (binaryExponent x - (p : Int) + 1)
    (roundHalfEven (x / ulp) : ℚ) * ulp

/-- Rounding to `double` (53-bit significand). -/
def roundDouble (x : ℚ) : ℚ := roundToPrecision 53 x

/-- Rounding to `float` (24-bit significand). -/
def roundFloat (x : ℚ) : ℚ := roundToPrecision 24 x

/-! ## SDL audio format codes (`SDL_audio.h`) -/

def AUDIO_U8 : Int := 0x0008
def AUDIO_S8 : Int := 0x8008
def AUDIO_U16LSB : Int := 0x0010
def AUDIO_S16LSB : Int := 0x8010
def AUDIO_U16MSB : Int := 0x1010
def AUDIO_S16MSB : Int := 0x9010
def AUDIO_S32LSB : Int := 0x8020
def AUDIO_S32MSB : Int := 0x9020
def AUDIO_F32LSB : Int := 0x8120
def AUDIO_F32MSB : Int := 0x9120

/-- The native-byte-order 16-bit signed format; `bigEndian` is the byte order
of the build target. -/
def AUDIO_S16SYS (bigEndian : Bool) : Int :=
  if bigEndian then AUDIO_S16MSB else AUDIO_S16LSB

/-- The native-byte-order 32-bit float format. -/
def AUDIO_F32SYS (bigEndian : Bool) : Int :=
  if bigEndian then AUDIO_F32MSB else AUDIO_F32LSB

/-- Size in bytes of `Sint16`. -/
def sizeof_Sint16 : Int := 2

/-- Size in bytes of `float`. -/
def sizeof_float : Int := 4

/-! ## Calls to external collaborators -/

/-- The PCM render callbacks of the codec. -/
inductive PcmRender where
  | playSynthS16
  | playSynthF32
  deriving DecidableEq, Repr

/-- One call made by the codec to SDL, to the synthesizer backend or to the
MIDI sequencer, with the arguments that matter. -/
inductive Call where
  | SDL_LoadObject
  | SDL_LoadFunction (handle : Nat) (name : String)
  | SDL_UnloadObject (handle : Nat)
  | SDL_calloc
  | SDL_malloc (size : Int)
  | SDL_free (ptr : Nat)
  | SDL_OutOfMemory
  | Mix_SetError (msg : String)
  | SDL_LoadFile_RW (src : Nat)
  | SDL_NewAudioStream (srcFormat : Int) (srcChannels : Int) (srcRate : Int)
      (dstFormat : Int) (dstChannels : Int) (dstRate : Int)
  | SDL_AudioStreamGet (stream : Nat) (bytes : Int)
  | SDL_AudioStreamPut (stream : Nat) (buffer : Nat) (amount : Int)
  | SDL_AudioStreamFlush (stream : Nat)
  | SDL_FreeAudioStream (stream : Nat)
  | new_fluid_settings
  | fluid_settings_setnum (settings : Nat) (name : String) (value : Int)
  | fluid_settings_getnum (settings : Nat) (name : String)
  | new_fluid_synth (settings : Nat)
  | fluid_synth_get_settings (synth : Nat)
  | delete_fluid_synth (synth : Nat)
  | delete_fluid_settings (settings : Nat)
  | fluid_synth_sfload (synth : Nat) (path : String) (reset_presets : Int)
  | fluid_synth_set_gain (synth : Nat) (gain : CDouble)
  | fluid_synth_pitch_bend (synth : Nat) (chan : Nat) (val : Nat)
  | midi_seq_init_interface
  | midi_seq_openData (player : Nat) (buffer : Nat) (size : Nat)
  | midi_seq_get_error (player : Nat)
  | midi_seq_meta_title (player : Nat)
  | midi_seq_meta_copyright (player : Nat)
  | midi_seq_free (player : Nat)
  | midi_seq_rewind (player : Nat)
  | midi_seq_set_loop_enabled (player : Nat) (enabled : Bool)
  | midi_seq_set_tempo_multiplier (player : Nat) (tempo : CDouble)
  | midi_seq_play_buffer (player : Nat) (buffer : Nat) (buffer_size : Int)
  | meta_tags_init
  | meta_tags_clear
  | Mix_ParseMidiMetaTag (tag : String)
  deriving DecidableEq

/-! ## The session -/

/-- The fields of `BW_MidiRtInterface` that `init_interface` writes, apart from
the eight real-time event callbacks, which are always the codec's own proxies. -/
structure BW_MidiRtInterface where
  rtCallbacksSet : Bool
  onPcmRender : Option PcmRender
  pcmSampleRate : Int
  pcmFrameSize : Int
  deriving DecidableEq

/-- The interface after `SDL_memset(&seqi->seq_if, 0, ...)`. -/
def BW_MidiRtInterface.zeroed : BW_MidiRtInterface :=
  { rtCallbacksSet := false, onPcmRender := none, pcmSampleRate := 0, pcmFrameSize := 0 }

/-- The struct `FLUIDSYNTH_Music`; `tags` holds the two cached metadata fields
once they are initialised. -/
structure FLUIDSYNTH_Music where
  synth : Nat
  seq_if : BW_MidiRtInterface
  player : Nat
  stream : Nat
  buffer : Nat
  buffer_size : Int
  sample_size : Int
  volume : Int
  play_count : Int
  tempo : CDouble
  tags : Bool
  deriving DecidableEq

/-- The session after `SDL_calloc(1, sizeof(FLUIDSYNTH_Music))`. -/
def FLUIDSYNTH_Music.zeroed : FLUIDSYNTH_Music :=
  { synth := 0, seq_if := BW_MidiRtInterface.zeroed, player := 0, stream := 0, buffer := 0,
    buffer_size := 0, sample_size := 0, volume := 0, play_count := 0,
    tempo := CDouble.finite 0, tags := false }

/-! ## Play and the pull cycle -/

/-- Outcome of a transport call: the return value, the session afterwards and
the external calls issued. -/
structure CallResult where
  ret : Int
  music : FLUIDSYNTH_Music
  calls : List Call
  deriving DecidableEq

/-- `FLUIDSYNTH_Play` (lines 393-400). -/
def FLUIDSYNTH_Play (music : FLUIDSYNTH_Music) (play_count : Int) : CallResult :=
  { ret := 0
    music := { music with play_count := play_count }
    calls := [Call.midi_seq_rewind music.player,
              Call.midi_seq_set_loop_enabled music.player (decide (play_count < 0))] }

/-- What the collaborators answer during one pull cycle: the byte count
returned by `SDL_AudioStreamGet`, the length returned by
`midi_seq_play_buffer`, and the status returned by `SDL_AudioStreamPut`. -/
structure PullEnv where
  streamGet : Int
  playBuffer : Int
  streamPut : Int
  deriving DecidableEq

/-- Outcome of `FLUIDSYNTH_GetSome`: return value, the caller's `*done` flag
afterwards, the session afterwards, and the external calls issued. -/
structure PullResult where
  ret : Int
  done : Bool
  music : FLUIDSYNTH_Music
  calls : List Call
  deriving DecidableEq

/-- `FLUIDSYNTH_GetSome` (lines 479-522); `done` is the value of `*done` on
entry. -/
def FLUIDSYNTH_GetSome (env : PullEnv) (music : FLUIDSYNTH_Music) (bytes : Int)
    (done : Bool) : PullResult :=
  let get := Call.SDL_AudioStreamGet music.stream bytes
  let filled := env.streamGet
  if filled ≠ 0 then
    { ret := filled, done := done, music := music, calls := [get] }
  else if music.play_count = 0 then
    { ret := 0, done := true, music := music, calls := [get] }
  else
    let render := Call.midi_seq_play_buffer music.player music.buffer music.buffer_size
    let gotten_len := env.playBuffer
    if gotten_len ≤ 0 then
      { ret := 0, done := true, music := music, calls := [get, render] }
    else
      let amount := gotten_len
      if amount > 0 then
        let put := Call.SDL_AudioStreamPut music.stream music.buffer amount
        if env.streamPut < 0 then
          { ret := -1, done := done, music := music, calls := [get, render, put] }
        else
          { ret := 0, done := done, music := music, calls := [get, render, put] }
      else if music.play_count = 1 then
        { ret := 0, done := done, music := { music with play_count := 0 },
          calls := [get, render, Call.SDL_AudioStreamFlush music.stream] }
      else
        let play_count : Int := if music.play_count > 0 then music.play_count - 1 else -1
        { ret := 0, done := done, music := { music with play_count := play_count },
          calls := [get, render, Call.midi_seq_rewind music.player] }

/-- A pull cycle in which the stream drains zero bytes and the sequencer
renders an empty block. -/
def exhaustionEnv : PullEnv := { streamGet := 0, playBuffer := 0, streamPut := 0 }

/-- The session and `*done` flag after `k` consecutive pull cycles that all
meet `exhaustionEnv`, starting from `music` with `*done` equal to `done`. -/
def exhaustions (bytes : Int) : Nat → FLUIDSYNTH_Music × Bool → FLUIDSYNTH_Music × Bool
  | 0, s => s
  | k + 1, s =>
    let r := FLUIDSYNTH_GetSome exhaustionEnv s.1 bytes s.2
    exhaustions bytes k (r.music, r.done)

/-! ## Tempo, volume and the pitch-bend proxy -/

/-- `FLUIDSYNTH_SetTempo` (lines 427-437); `context` is `none` for a `NULL`
pointer. Returns the return value, the session afterwards and the calls. -/
def FLUIDSYNTH_SetTempo (context : Option FLUIDSYNTH_Music) (tempo : CDouble) :
    Int × Option FLUIDSYNTH_Music × List Call :=
  match context with
  | some music =>
    if tempo.gtZero then
      (0, some { music with tempo := tempo },
        [Call.midi_seq_set_tempo_multiplier music.player tempo])
    else
      (0, some music, [])
  | none => (0, none, [])

/-- `FLUIDSYNTH_GetTempo` (lines 439-446). -/
def FLUIDSYNTH_GetTempo (context : Option FLUIDSYNTH_Music) : CDouble :=
  match context with
  | some music => music.tempo
  | none => CDouble.finite (-1)

/-- `FLUIDSYNTH_SetVolume` (lines 379-385). The argument
`(float) (volume * 1.2 / MIX_MAX_VOLUME)` is evaluated as C evaluates it: the
two `int` operands are converted to `double` (exactly, being 32-bit values),
the literal `1.2` is the double nearest to it, the product and the quotient are
each rounded to `double`, and the cast rounds the result to `float`. With
32-bit operands no intermediate value leaves the normal range of either
format. A zero `MIX_MAX_VOLUME` makes the quotient an infinity or NaN. The
recorded gain is the `float` value passed, finite values as rationals.
`MIX_MAX_VOLUME` comes from a header and is a parameter. -/
def FLUIDSYNTH_SetVolume (MIX_MAX_VOLUME : Int) (music : FLUIDSYNTH_Music) (volume : Int) :
    FLUIDSYNTH_Music × List Call :=
  let product : ℚ := roundDouble ((volume : ℚ) * roundDouble 1.2)
  let gain : CDouble :=
    if MIX_MAX_VOLUME = 0 then
      if product = 0 then CDouble.nan
      else if 0 < product then CDouble.posInf
      else CDouble.negInf
    else
      CDouble.finite (roundFloat (roundDouble (product / (MIX_MAX_VOLUME : ℚ))))
  ({ music with volume := volume }, [Call.fluid_synth_set_gain music.synth gain])

/-- `FLUIDSYNTH_GetVolume` (lines 387-391). -/
def FLUIDSYNTH_GetVolume (music : FLUIDSYNTH_Music) : Int := music.volume

/-- The value `(msb << 7) | lsb` computed by `rtPitchBend` from two `uint8_t`
arguments promoted to `int`. -/
def pitchBendValue (msb lsb : Nat) : Nat := (toUint8 msb <<< 7) ||| toUint8 lsb

/-- `rtPitchBend` (lines 179-183): the calls it issues. -/
def rtPitchBend (seqi : FLUIDSYNTH_Music) (channel msb lsb : Nat) : List Call :=
  [Call.fluid_synth_pitch_bend seqi.synth (toUint8 channel) (pitchBendValue msb lsb)]

/-! ## Format negotiation -/

/-- `init_interface` (lines 208-254): the returned `inFormat` and the session
afterwards. `freq` is `music_spec.freq`. -/
def init_interface (bigEndian : Bool) (freq : Int) (seqi : FLUIDSYNTH_Music) (outFormat : Int) :
    Int × FLUIDSYNTH_Music :=
  let cleared : BW_MidiRtInterface := { BW_MidiRtInterface.zeroed with rtCallbacksSet := true }
  let s16 : Int × FLUIDSYNTH_Music :=
    (AUDIO_S16SYS bigEndian,
      { seqi with seq_if := { cleared with onPcmRender := some PcmRender.playSynthS16,
                                            pcmSampleRate := freq,
                                            pcmFrameSize := 2 * sizeof_Sint16 } })
  let f32 : Int × FLUIDSYNTH_Music :=
    (AUDIO_F32SYS bigEndian,
      { seqi with seq_if := { cleared with onPcmRender := some PcmRender.playSynthF32,
                                            pcmSampleRate := freq,
                                            pcmFrameSize := 2 * sizeof_float } })
  if outFormat = AUDIO_U8 ∨ outFormat = AUDIO_S8 ∨ outFormat = AUDIO_S16LSB ∨
      outFormat = AUDIO_S16MSB ∨ outFormat = AUDIO_U16LSB ∨ outFormat = AUDIO_U16MSB then
    s16
  else if outFormat = AUDIO_S32LSB ∨ outFormat = AUDIO_S32MSB ∨ outFormat = AUDIO_F32LSB ∨
      outFormat = AUDIO_F32MSB then
    f32
  else
    s16

/-! ## The refcounted backend binding -/

/-- The global `fluidsynth`: the reference count, the library handle and the
names of the function-table entries that currently hold a non-`NULL` pointer. -/
structure fluidsynth_loader where
  loaded : Int
  handle : Nat
  resolved : List String
  deriving DecidableEq

/-- The static initialiser `{ 0, NULL }`. -/
def fluidsynth_loader.initial : fluidsynth_loader :=
  { loaded := 0, handle := 0, resolved := [] }

/-- The build and the dynamic linker: whether `FLUIDSYNTH_DYNAMIC` is defined,
the handle `SDL_LoadObject` returns, and whether `SDL_LoadFunction` finds a
given symbol. -/
structure LoaderEnv where
  dynamic : Bool
  loadObject : Nat
  loadFunction : String → Bool

/-- The symbols `FLUIDSYNTH_Load` resolves, in order (lines 84-102). -/
def loaderSymbols : List String :=
  ["delete_fluid_synth", "delete_fluid_settings", "fluid_settings_setnum",
   "fluid_settings_getnum", "fluid_synth_get_settings", "fluid_synth_set_gain",
   "fluid_synth_sfload", "fluid_synth_write_s16", "fluid_synth_write_float",
   "new_fluid_settings", "new_fluid_synth", "fluid_synth_noteon", "fluid_synth_noteoff",
   "fluid_synth_cc", "fluid_synth_pitch_bend", "fluid_synth_key_pressure",
   "fluid_synth_channel_pressure", "fluid_synth_program_change", "fluid_synth_sysex"]

/-- The macro `FUNCTION_LOADER` (lines 65-72) for one symbol. The first
component is `false` when the macro executes `return -1`. -/
def FUNCTION_LOADER (env : LoaderEnv) (FUNC : String) (st : fluidsynth_loader) :
    Bool × fluidsynth_loader × List Call :=
  if env.dynamic then
    if env.loadFunction FUNC then
      (true, { st with resolved := (st.resolved.erase FUNC) ++ [FUNC] },
        [Call.SDL_LoadFunction st.handle FUNC])
    else
      (false, { st with resolved := st.resolved.erase FUNC },
        [Call.SDL_LoadFunction st.handle FUNC, Call.SDL_UnloadObject st.handle])
  else
    (true, { st with resolved := (st.resolved.erase FUNC) ++ [FUNC] }, [])

/-- The sequence of `FUNCTION_LOADER` lines, stopping at the first that
returns. -/
def loadFunctions (env : LoaderEnv) :
    List String → fluidsynth_loader → Bool × fluidsynth_loader × List Call
  | [], st => (true, st, [])
  | f :: fs, st =>
    let r := FUNCTION_LOADER env f st
    if r.1 then
      let rest := loadFunctions env fs r.2.1
      (rest.1, rest.2.1, r.2.2 ++ rest.2.2)
    else
      (false, r.2.1, r.2.2)

/-- `FLUIDSYNTH_Load` (lines 74-107): return value, the global afterwards and
the calls issued. -/
def FLUIDSYNTH_Load (env : LoaderEnv) (st : fluidsynth_loader) :
    Int × fluidsynth_loader × List Call :=
  if st.loaded = 0 then
    if env.dynamic ∧ env.loadObject = 0 then
      (-1, { st with handle := env.loadObject }, [Call.SDL_LoadObject])
    else
      let st1 := if env.dynamic then { st with handle := env.loadObject } else st
      let c1 := if env.dynamic then [Call.SDL_LoadObject] else []
      let r := loadFunctions env loaderSymbols st1
      if r.1 then
        (0, { r.2.1 with loaded := wrapInt (r.2.1.loaded + 1) }, c1 ++ r.2.2)
      else
        (-1, r.2.1, c1 ++ r.2.2)
  else
    (0, { st with loaded := wrapInt (st.loaded + 1) }, [])

/-- `FLUIDSYNTH_Unload` (lines 109-120): the global afterwards and the calls
issued. -/
def FLUIDSYNTH_Unload (env : LoaderEnv) (st : fluidsynth_loader) :
    fluidsynth_loader × List Call :=
  if st.loaded = 0 then
    (st, [])
  else
    let c := if st.loaded = 1 ∧ env.dynamic then [Call.SDL_UnloadObject st.handle] else []
    ({ st with loaded := wrapInt (st.loaded - 1) }, c)

/-! ## Loading and deleting a session -/

/-- Modelled from the spec: the instrument-bank enumerator `Mix_EachSoundFont`,
which is defined outside this file. It is handed the configured paths, calls
`function` on every one of them in order, and succeeds (returns 1) exactly
when `function` reported success (a non-zero result) for at least one path. -/
def Mix_EachSoundFont (function : String → Int × List Call) : List String → Int × List Call
  | [] => (0, [])
  | path :: rest =>
    let r := function path
    let tail := Mix_EachSoundFont function rest
    (if r.1 ≠ 0 then 1 else tail.1, r.2 ++ tail.2)

/-- `fluidsynth_load_soundfont` (lines 273-278); `sfload` is the result the
backend returns for `fluid_synth_sfload` on a path (negative on failure), and
`data` is the synth handle. -/
def fluidsynth_load_soundfont (sfload : String → Int) (data : Nat) (path : String) :
    Int × List Call :=
  let _discarded := sfload path
  (1, [Call.fluid_synth_sfload data path 1])

/-- `FLUIDSYNTH_Delete` (lines 528-540): the calls it issues. `context` is the
address of the session, `settings` the handle answered by
`fluid_synth_get_settings`. -/
def FLUIDSYNTH_Delete (settings : Nat) (context : Nat) (music : FLUIDSYNTH_Music) : List Call :=
  [Call.fluid_synth_get_settings music.synth,
   Call.midi_seq_free music.player,
   Call.meta_tags_clear,
   Call.delete_fluid_synth music.synth,
   Call.delete_fluid_settings settings] ++
  (if music.stream ≠ 0 then [Call.SDL_FreeAudioStream music.stream] else []) ++
  [Call.SDL_free context]

/-- The globals read by `FLUIDSYNTH_LoadMusic` and what the collaborators
answer during one load. Pointers and handles are `0` for `NULL`. -/
structure LoadEnv where
  MIX_MAX_VOLUME : Int
  bigEndian : Bool
  spec_freq : Int
  spec_format : Int
  spec_channels : Int
  spec_samples : Int
  calloc : Nat
  malloc : Nat
  new_fluid_settings : Nat
  samplerate : ℚ
  new_fluid_synth : Nat
  soundfonts : List String
  sfload : String → Int
  midi_seq_init_interface : Nat
  loadFile : Nat
  loadFileSize : Nat
  openData : Int
  newAudioStream : Nat
  get_settings : Nat

/-- `FLUIDSYNTH_LoadMusic` (lines 289-366): the session returned (`none` for
`NULL`) and the calls issued. -/
def FLUIDSYNTH_LoadMusic (env : LoadEnv) (src : Nat) : Option FLUIDSYNTH_Music × List Call :=
  if env.calloc ≠ 0 then
    let channels : Int := 2
    let m0 : FLUIDSYNTH_Music :=
      { FLUIDSYNTH_Music.zeroed with
        volume := env.MIX_MAX_VOLUME, tempo := CDouble.finite 1, play_count := 0 }
    let negotiated := init_interface env.bigEndian env.spec_freq m0 env.spec_format
    let srcFormat := negotiated.1
    let m1 : FLUIDSYNTH_Music :=
      { negotiated.2 with
        sample_size := if srcFormat = AUDIO_S16SYS env.bigEndian then sizeof_Sint16
                       else sizeof_float }
    let m2 : FLUIDSYNTH_Music :=
      { m1 with buffer_size := env.spec_samples * m1.sample_size * channels }
    let free_music := [Call.SDL_free env.calloc]
    let c0 := [Call.SDL_calloc, Call.SDL_malloc m2.buffer_size]
    let m3 : FLUIDSYNTH_Music := { m2 with buffer := env.malloc }
    if env.malloc ≠ 0 then
      let settings := env.new_fluid_settings
      let c1 := c0 ++ [Call.new_fluid_settings]
      if settings ≠ 0 then
        let m4 : FLUIDSYNTH_Music :=
          { m3 with seq_if := { m3.seq_if with pcmSampleRate := truncToInt env.samplerate } }
        let c2 := c1 ++ [Call.fluid_settings_setnum settings "synth.sample-rate" env.spec_freq,
                         Call.fluid_settings_getnum settings "synth.sample-rate",
                         Call.new_fluid_synth settings]
        let m5 : FLUIDSYNTH_Music := { m4 with synth := env.new_fluid_synth }
        let free_settings := [Call.delete_fluid_settings settings]
        if m5.synth ≠ 0 then
          let banks :=
            Mix_EachSoundFont (fluidsynth_load_soundfont env.sfload m5.synth) env.soundfonts
          let c3 := c2 ++ banks.2
          let free_synth := [Call.delete_fluid_synth m5.synth]
          if banks.1 ≠ 0 then
            let c4 := c3 ++ [Call.midi_seq_init_interface]
            let m6 : FLUIDSYNTH_Music := { m5 with player := env.midi_seq_init_interface }
            if m6.player ≠ 0 then
              let buffer := env.loadFile
              let c5 := c4 ++ [Call.SDL_LoadFile_RW src]
              let free_player := [Call.midi_seq_free m6.player]
              if buffer ≠ 0 then
                let c6 := c5 ++ [Call.midi_seq_openData m6.player buffer env.loadFileSize]
                if env.openData = 0 then
                  let c7 := c6 ++ [Call.SDL_free buffer,
                    Call.SDL_NewAudioStream srcFormat channels (truncToInt env.samplerate)
                      env.spec_format env.spec_channels env.spec_freq]
                  let m7 : FLUIDSYNTH_Music := { m6 with stream := env.newAudioStream }
                  if m7.stream ≠ 0 then
                    (some { m7 with tags := true },
                      c7 ++ [Call.meta_tags_init,
                             Call.midi_seq_meta_title m7.player,
                             Call.Mix_ParseMidiMetaTag "MIX_META_TITLE",
                             Call.midi_seq_meta_copyright m7.player,
                             Call.Mix_ParseMidiMetaTag "MIX_META_COPYRIGHT"])
                  else
                    (none, c7 ++ FLUIDSYNTH_Delete env.get_settings env.calloc m7)
                else
                  (none, c6 ++ [Call.midi_seq_get_error m6.player,
                      Call.Mix_SetError "FluidSynth failed to load in-memory song: %s",
                      Call.SDL_free buffer] ++
                    free_player ++ free_synth ++ free_settings ++ free_music)
              else
                (none, c5 ++ [Call.SDL_OutOfMemory] ++
                  free_player ++ free_synth ++ free_settings ++ free_music)
            else
              (none, c4 ++ [Call.Mix_SetError "Failed to create FluidSynth player"] ++
                free_synth ++ free_settings ++ free_music)
          else
            (none, c3 ++ free_synth ++ free_settings ++ free_music)
        else
          (none, c2 ++ [Call.Mix_SetError "Failed to create FluidSynth synthesizer"] ++
            free_settings ++ free_music)
      else
        (none, c1 ++ [Call.Mix_SetError "Failed to create FluidSynth settings"] ++ free_music)
    else
      (none, c0 ++ [Call.SDL_OutOfMemory] ++ free_music)
  else
    (none, [Call.SDL_calloc, Call.SDL_OutOfMemory])

/-- A load environment in which every stage other than instrument-bank
loading succeeds, for the given configured paths and backend answers. -/
def sampleLoadEnv (soundfonts : List String) (sfload : String → Int) : LoadEnv :=
  { MIX_MAX_VOLUME := 128, bigEndian := false, spec_freq := 44100,
    spec_format := AUDIO_S16LSB, spec_channels := 2, spec_samples := 4096,
    calloc := 1, malloc := 2, new_fluid_settings := 3, samplerate := 44100,
    new_fluid_synth := 4, soundfonts := soundfonts, sfload := sfload,
    midi_seq_init_interface := 5, loadFile := 6, loadFileSize := 100, openData := 0,
    newAudioStream := 7, get_settings := 3 }

/-! ## Theorems: the pull cycle -/

/-- An exhaustion cycle leaves the session as it is and raises `*done`. -/
theorem GetSome_exhaustion (music : FLUIDSYNTH_Music) (bytes : Int) (done : Bool) :
    (FLUIDSYNTH_GetSome exhaustionEnv music bytes done).music = music ∧
    (FLUIDSYNTH_GetSome exhaustionEnv music bytes done).done = true := by
  unfold FLUIDSYNTH_GetSome exhaustionEnv
  by_cases h : music.play_count = 0 <;> simp [h]

/-- Any positive number of exhaustion cycles leaves the session as it is and
ends with `*done` raised. -/
theorem exhaustions_succ (bytes : Int) (k : Nat) (music : FLUIDSYNTH_Music) (done : Bool) :
    exhaustions bytes (k + 1) (music, done) = (music, true) := by
  induction k generalizing done with
  | zero =>
    have h := GetSome_exhaustion music bytes done
    simp only [exhaustions]
    exact Prod.ext h.1 h.2
  | succ k ih =>
    have h := GetSome_exhaustion music bytes done
    rw [exhaustions]
    simp only [h.1, h.2]
    exact ih true

/-- C1 (the code departs from the claim): starting from the state left by
`FLUIDSYNTH_Play(n)`, any positive number of pull cycles in which the stream
drains zero bytes and the sequencer renders an empty block leaves `play_count`
equal to `n` and has end-of-stream signalled; in particular after `Play(3)` one
such cycle already reports done with `play_count` still 3, and three such
cycles leave `play_count` at 3, not 0. -/
theorem Play_exhaustions_keep_play_count :
    (∀ (music : FLUIDSYNTH_Music) (n bytes : Int) (done : Bool) (k : Nat),
      exhaustions bytes (k + 1) ((FLUIDSYNTH_Play music n).music, done)
        = ({ music with play_count := n }, true)) ∧
    (exhaustions 4096 1 ((FLUIDSYNTH_Play FLUIDSYNTH_Music.zeroed 3).music, false)).2 = true ∧
    (exhaustions 4096 1
      ((FLUIDSYNTH_Play FLUIDSYNTH_Music.zeroed 3).music, false)).1.play_count = 3 ∧
    (exhaustions 4096 3
      ((FLUIDSYNTH_Play FLUIDSYNTH_Music.zeroed 3).music, false)).1.play_count = 3 := by
  refine ⟨?_, ?_, ?_, ?_⟩
  · intro music n bytes done k
    exact exhaustions_succ bytes k _ done
  · rw [exhaustions_succ]
  · rw [exhaustions_succ]; rfl
  · rw [exhaustions_succ]; rfl

/-- C2 (the code departs from the claim): in the state left by
`FLUIDSYNTH_Play(n)` for any `n`, negative ones included, a pull cycle in which
the stream drains zero bytes and the sequencer renders an empty block sets
`*done` to true and issues no rewind, leaving `play_count` equal to `n`; at
`n = -1` the calls are exactly the drain and the render. -/
theorem GetSome_exhaustion_sets_done :
    (∀ (music : FLUIDSYNTH_Music) (n bytes : Int) (done : Bool),
      (FLUIDSYNTH_GetSome exhaustionEnv (FLUIDSYNTH_Play music n).music bytes done).done = true ∧
      Call.midi_seq_rewind music.player ∉
        (FLUIDSYNTH_GetSome exhaustionEnv (FLUIDSYNTH_Play music n).music bytes done).calls ∧
      (FLUIDSYNTH_GetSome exhaustionEnv
        (FLUIDSYNTH_Play music n).music bytes done).music.play_count = n) ∧
    FLUIDSYNTH_GetSome exhaustionEnv (FLUIDSYNTH_Play FLUIDSYNTH_Music.zeroed (-1)).music 4096 false
      = { ret := 0, done := true,
          music := { FLUIDSYNTH_Music.zeroed with play_count := -1 },
          calls := [Call.SDL_AudioStreamGet 0 4096, Call.midi_seq_play_buffer 0 0 0] } := by
  refine ⟨?_, ?_⟩
  · intro music n bytes done
    unfold FLUIDSYNTH_GetSome exhaustionEnv FLUIDSYNTH_Play
    by_cases h : n = 0 <;> simp [h]
  · decide

/-- C9 (the code departs from the claim): in a pull cycle where the stream
drains zero bytes, `play_count` is 1 and the sequencer renders an empty block,
`play_count` stays 1, `*done` is set, and the only calls are the drain and one
render: the stream is not flushed. -/
theorem GetSome_last_play_no_flush (music : FLUIDSYNTH_Music) (bytes : Int) (done : Bool) :
    FLUIDSYNTH_GetSome exhaustionEnv { music with play_count := 1 } bytes done
      = { ret := 0, done := true, music := { music with play_count := 1 },
          calls := [Call.SDL_AudioStreamGet music.stream bytes,
                    Call.midi_seq_play_buffer music.player music.buffer music.buffer_size] } := by
  simp [FLUIDSYNTH_GetSome, exhaustionEnv]

/-- C10: if the drain of the Resampling Stream at the start of
`FLUIDSYNTH_GetSome` yields a non-zero number of bytes, the function returns
exactly that number, its only external call is that drain (no render, push,
flush or rewind), and the session and the `*done` flag are unchanged. -/
theorem GetSome_drain_before_render (env : PullEnv) (music : FLUIDSYNTH_Music) (bytes : Int)
    (done : Bool) (h : env.streamGet ≠ 0) :
    FLUIDSYNTH_GetSome env music bytes done
      = { ret := env.streamGet, done := done, music := music,
          calls := [Call.SDL_AudioStreamGet music.stream bytes] } := by
  simp [FLUIDSYNTH_GetSome, h]

/-- Witness for `GetSome_drain_before_render`: a drain of 4096 bytes while
`play_count` is 2 and the sequencer would have rendered 512 bytes. -/
theorem GetSome_drain_before_render_witness :
    (4096 : Int) ≠ 0 ∧
    FLUIDSYNTH_GetSome { streamGet := 4096, playBuffer := 512, streamPut := 0 }
        { FLUIDSYNTH_Music.zeroed with play_count := 2, stream := 7 } 4096 false
      = { ret := 4096, done := false,
          music := { FLUIDSYNTH_Music.zeroed with play_count := 2, stream := 7 },
          calls := [Call.SDL_AudioStreamGet 7 4096] } :=
  ⟨by decide,
   GetSome_drain_before_render { streamGet := 4096, playBuffer := 512, streamPut := 0 }
     { FLUIDSYNTH_Music.zeroed with play_count := 2, stream := 7 } 4096 false (by decide)⟩

/-! ## Theorems: format negotiation, tempo, volume, pitch bend -/

/-- C3: for every host format value `init_interface` returns the native 16-bit
signed or the native 32-bit float encoding (two different values); the four
formats S32LSB, S32MSB, F32LSB, F32MSB give 32-bit float with frame size 8 and
the float render callback; every other value, among them U8, S8, S16LSB,
S16MSB, U16LSB and U16MSB, gives 16-bit signed with frame size 4 and the S16
render callback. -/
theorem init_interface_two_valued (bigEndian : Bool) (freq : Int) (seqi : FLUIDSYNTH_Music)
    (outFormat : Int) :
    ((init_interface bigEndian freq seqi outFormat).1 = AUDIO_S16SYS bigEndian ∨
      (init_interface bigEndian freq seqi outFormat).1 = AUDIO_F32SYS bigEndian) ∧
    AUDIO_S16SYS bigEndian ≠ AUDIO_F32SYS bigEndian ∧
    (if outFormat ∈ [AUDIO_S32LSB, AUDIO_S32MSB, AUDIO_F32LSB, AUDIO_F32MSB] then
      (init_interface bigEndian freq seqi outFormat).1 = AUDIO_F32SYS bigEndian ∧
      (init_interface bigEndian freq seqi outFormat).2.seq_if.pcmFrameSize = 8 ∧
      (init_interface bigEndian freq seqi outFormat).2.seq_if.onPcmRender
        = some PcmRender.playSynthF32
    else
      (init_interface bigEndian freq seqi outFormat).1 = AUDIO_S16SYS bigEndian ∧
      (init_interface bigEndian freq seqi outFormat).2.seq_if.pcmFrameSize = 4 ∧
      (init_interface bigEndian freq seqi outFormat).2.seq_if.onPcmRender
        = some PcmRender.playSynthS16) ∧
    (∀ f ∈ [AUDIO_U8, AUDIO_S8, AUDIO_S16LSB, AUDIO_S16MSB, AUDIO_U16LSB, AUDIO_U16MSB],
      f ∉ [AUDIO_S32LSB, AUDIO_S32MSB, AUDIO_F32LSB, AUDIO_F32MSB] ∧
      (init_interface bigEndian freq seqi f).1 = AUDIO_S16SYS bigEndian ∧
      (init_interface bigEndian freq seqi f).2.seq_if.pcmFrameSize = 4 ∧
      (init_interface bigEndian freq seqi f).2.seq_if.onPcmRender
        = some PcmRender.playSynthS16) := by
  refine ⟨?_, ?_, ?_, ?_⟩
  · unfold init_interface
    split_ifs <;> simp
  · cases bigEndian <;> decide
  · unfold init_interface
    split_ifs with h1 h2 h3 h4 h5 <;>
      simp_all [AUDIO_U8, AUDIO_S8, AUDIO_S16LSB, AUDIO_S16MSB, AUDIO_U16LSB, AUDIO_U16MSB,
        AUDIO_S32LSB, AUDIO_S32MSB, AUDIO_F32LSB, AUDIO_F32MSB, sizeof_Sint16, sizeof_float]
    omega
  · intro f hf
    simp only [List.mem_cons, List.mem_singleton, List.not_mem_nil, or_false] at hf
    rcases hf with rfl | rfl | rfl | rfl | rfl | rfl <;>
      exact ⟨by decide, by simp [init_interface], by simp [init_interface, sizeof_Sint16],
        by simp [init_interface]⟩

/-- C4: on a session, `FLUIDSYNTH_SetTempo(t)` with `t <= 0` returns 0, issues
no call and leaves `FLUIDSYNTH_GetTempo()` at its previous value; with `t > 0`
it returns 0, issues exactly one call, the sequencer's tempo multiplier with
argument `t`, and afterwards `FLUIDSYNTH_GetTempo()` is `t`. -/
theorem SetTempo_guard (music : FLUIDSYNTH_Music) (t : CDouble) :
    (t.leZero = true →
      (FLUIDSYNTH_SetTempo (some music) t).1 = 0 ∧
      (FLUIDSYNTH_SetTempo (some music) t).2.2 = [] ∧
      FLUIDSYNTH_GetTempo (FLUIDSYNTH_SetTempo (some music) t).2.1
        = FLUIDSYNTH_GetTempo (some music)) ∧
    (t.gtZero = true →
      (FLUIDSYNTH_SetTempo (some music) t).1 = 0 ∧
      (FLUIDSYNTH_SetTempo (some music) t).2.2
        = [Call.midi_seq_set_tempo_multiplier music.player t] ∧
      FLUIDSYNTH_GetTempo (FLUIDSYNTH_SetTempo (some music) t).2.1 = t) := by
  constructor
  · intro h
    have hg : t.gtZero = false := by
      cases t <;> simp_all [CDouble.leZero, CDouble.gtZero]
    simp [FLUIDSYNTH_SetTempo, FLUIDSYNTH_GetTempo, hg]
  · intro h
    simp [FLUIDSYNTH_SetTempo, FLUIDSYNTH_GetTempo, h]

/-- Witness for `SetTempo_guard`: tempo 0 and tempo -1 are ignored on a session
whose tempo is 1, and tempo 2 is forwarded and recorded. -/
theorem SetTempo_guard_witness :
    ((FLUIDSYNTH_SetTempo (some { FLUIDSYNTH_Music.zeroed with tempo := CDouble.finite 1 })
        (CDouble.finite 0)).2.2 = [] ∧
      FLUIDSYNTH_GetTempo
        (FLUIDSYNTH_SetTempo (some { FLUIDSYNTH_Music.zeroed with tempo := CDouble.finite 1 })
          (CDouble.finite 0)).2.1 = CDouble.finite 1) ∧
    ((FLUIDSYNTH_SetTempo (some { FLUIDSYNTH_Music.zeroed with tempo := CDouble.finite 1 })
        (CDouble.finite (-1))).2.2 = [] ∧
      FLUIDSYNTH_GetTempo
        (FLUIDSYNTH_SetTempo (some { FLUIDSYNTH_Music.zeroed with tempo := CDouble.finite 1 })
          (CDouble.finite (-1))).2.1 = CDouble.finite 1) ∧
    ((FLUIDSYNTH_SetTempo (some { FLUIDSYNTH_Music.zeroed with tempo := CDouble.finite 1 })
        (CDouble.finite 2)).2.2
        = [Call.midi_seq_set_tempo_multiplier 0 (CDouble.finite 2)] ∧
      FLUIDSYNTH_GetTempo
        (FLUIDSYNTH_SetTempo (some { FLUIDSYNTH_Music.zeroed with tempo := CDouble.finite 1 })
          (CDouble.finite 2)).2.1 = CDouble.finite 2) :=
  ⟨((SetTempo_guard { FLUIDSYNTH_Music.zeroed with tempo := CDouble.finite 1 }
      (CDouble.finite 0)).1 (by simp [CDouble.leZero])).2,
   ((SetTempo_guard { FLUIDSYNTH_Music.zeroed with tempo := CDouble.finite 1 }
      (CDouble.finite (-1))).1 (by simp [CDouble.leZero])).2,
   ((SetTempo_guard { FLUIDSYNTH_Music.zeroed with tempo := CDouble.finite 1 }
      (CDouble.finite 2)).2 (by simp [CDouble.gtZero])).2⟩

/-- The fuel-bounded halving computes the binary logarithm rounded down. -/
theorem floorLog2Aux_spec (fuel n : Nat) (hf : n ≤ fuel) (hn : n ≠ 0) :
    2 ^ floorLog2Aux fuel n ≤ n ∧ n < 2 ^ (floorLog2Aux fuel n + 1) := by
  induction fuel generalizing n with
  | zero => omega
  | succ k ih =>
    unfold floorLog2Aux
    split_ifs with h
    · constructor <;> simp <;> omega
    · have h2 := ih (n / 2) (by omega) (by omega)
      rw [pow_succ, pow_succ, pow_succ]
      rw [pow_succ] at h2
      omega

/-- Rounding to the nearest integer moves a value by at most one half. -/
theorem roundHalfEven_err (q : ℚ) : |(roundHalfEven q : ℚ) - q| ≤ 1 / 2 := by
  have h1 : (Int.floor q : ℚ) ≤ q := Int.floor_le q
  have h2 : q < (Int.floor q : ℚ) + 1 := Int.lt_floor_add_one q
  unfold roundHalfEven
  simp only []
  rw [abs_le]
  split_ifs with a b c
  · constructor <;> linarith
  · push_cast; constructor <;> linarith
  · constructor <;> linarith
  · push_cast; constructor <;> linarith

/-- The power of two at the binary exponent does not exceed the value. -/
theorem binaryExponent_le (x : ℚ) (hx : x ≠ 0) : (2 : ℚ) ^ binaryExponent x ≤ |x| := by
  unfold binaryExponent
  simp only []
  split_ifs with h
  · exact h
  · have hnum : x.num.natAbs ≠ 0 := by
      simpa [Int.natAbs_eq_zero] using hx
    have hden : x.den ≠ 0 := x.den_nz
    have hn := (floorLog2Aux_spec x.num.natAbs x.num.natAbs le_rfl hnum).1
    have hd := (floorLog2Aux_spec x.den x.den le_rfl hden).2
    have habs : |x| = (x.num.natAbs : ℚ) / (x.den : ℚ) := by
      conv_lhs => rw [← Rat.num_div_den x]
      rw [abs_div, Nat.cast_natAbs, Nat.abs_cast]
      simp
    have hnq : (2 : ℚ) ^ floorLog2 x.num.natAbs ≤ (x.num.natAbs : ℚ) := by
      exact_mod_cast hn
    have hdq : (x.den : ℚ) ≤ (2 : ℚ) ^ (floorLog2 x.den + 1) := by
      exact_mod_cast hd.le
    have hdpos : (0 : ℚ) < x.den := by exact_mod_cast Nat.pos_of_ne_zero hden
    have e : (2 : ℚ) ^ ((floorLog2 x.num.natAbs : Int) - (floorLog2 x.den : Int) - 1)
        = (2 : ℚ) ^ floorLog2 x.num.natAbs / (2 : ℚ) ^ (floorLog2 x.den + 1) := by
      rw [sub_sub, zpow_sub₀ (by norm_num : (2 : ℚ) ≠ 0)]
      norm_cast
    rw [e, habs]
    exact div_le_div₀ (by positivity) hnq hdpos hdq

/-- The value lies below the next power of two after its binary exponent. -/
theorem binaryExponent_lt (x : ℚ) (hx : x ≠ 0) : |x| < (2 : ℚ) ^ (binaryExponent x + 1) := by
  unfold binaryExponent
  simp only []
  split_ifs with h
  · have hnum : x.num.natAbs ≠ 0 := by
      simpa [Int.natAbs_eq_zero] using hx
    have hden : x.den ≠ 0 := x.den_nz
    have hn := (floorLog2Aux_spec x.num.natAbs x.num.natAbs le_rfl hnum).2
    have hd := (floorLog2Aux_spec x.den x.den le_rfl hden).1
    have habs : |x| = (x.num.natAbs : ℚ) / (x.den : ℚ) := by
      conv_lhs => rw [← Rat.num_div_den x]
      rw [abs_div, Nat.cast_natAbs, Nat.abs_cast]
      simp
    have hnq : (x.num.natAbs : ℚ) < (2 : ℚ) ^ (floorLog2 x.num.natAbs + 1) := by
      exact_mod_cast hn
    have hdq : (2 : ℚ) ^ floorLog2 x.den ≤ (x.den : ℚ) := by
      exact_mod_cast hd
    have e : (2 : ℚ) ^ ((floorLog2 x.num.natAbs : Int) - (floorLog2 x.den : Int) + 1)
        = (2 : ℚ) ^ (floorLog2 x.num.natAbs + 1) / (2 : ℚ) ^ floorLog2 x.den := by
      rw [sub_add_eq_add_sub, zpow_sub₀ (by norm_num : (2 : ℚ) ≠ 0)]
      norm_cast
    rw [e, habs]
    exact div_lt_div₀ hnq hdq (by positivity) (by positivity)
  · rw [sub_add_cancel]
    exact lt_of_not_le h

/-- Rounding to a `p`-bit significand has relative error at most `2 ^ (-p)`. -/
theorem roundToPrecision_err (p : Nat) (x : ℚ) :
    |roundToPrecision p x - x| ≤ |x| / 2 ^ p := by
  unfold roundToPrecision
  split_ifs with h0
  · simp [h0]
  · simp only []
    set ulp : ℚ := (2 : ℚ) ^ (binaryExponent x - (p : Int) + 1) with hulp
    have hpos : 0 < ulp := by positivity
    have herr := roundHalfEven_err (x / ulp)
    have e1 : (roundHalfEven (x / ulp) : ℚ) * ulp - x
        = ((roundHalfEven (x / ulp) : ℚ) - x / ulp) * ulp := by
      field_simp
    rw [e1, abs_mul, abs_of_pos hpos]
    have hb := binaryExponent_le x h0
    have e2 : ulp / 2 = (2 : ℚ) ^ binaryExponent x / 2 ^ p := by
      rw [hulp, zpow_add₀ (by norm_num : (2 : ℚ) ≠ 0), zpow_sub₀ (by norm_num : (2 : ℚ) ≠ 0)]
      simp
    calc |(roundHalfEven (x / ulp) : ℚ) - x / ulp| * ulp ≤ 1 / 2 * ulp := by
          exact mul_le_mul_of_nonneg_right herr hpos.le
      _ = (2 : ℚ) ^ binaryExponent x / 2 ^ p := by rw [← e2]; ring
      _ ≤ |x| / 2 ^ p := by
          exact div_le_div_of_nonneg_right hb (by positivity)

/-- Relative errors of two successive approximations compose. -/
theorem rounding_compose (a X b k e : ℚ) (he : 0 ≤ e)
    (h1 : |a - X| ≤ k * |X|) (h2 : |b - a| ≤ e * |a|) :
    |b - X| ≤ ((1 + k) * (1 + e) - 1) * |X| := by
  have ha : |a| ≤ (1 + k) * |X| := by
    have := abs_sub_abs_le_abs_sub a X
    linarith
  have hb : |b - X| ≤ |b - a| + |a - X| := by
    have := abs_add (b - a) (a - X)
    simpa using this
  have h3 : e * |a| ≤ e * ((1 + k) * |X|) := mul_le_mul_of_nonneg_left ha he
  nlinarith

/-- The gain computed in `double` and cast to `float` is within a relative
error of `2 ^ (-23)` of the exact quotient. -/
theorem gain_rounding_err (M v : Int) :
    |roundFloat (roundDouble (roundDouble ((v : ℚ) * roundDouble 1.2) / (M : ℚ)))
        - (v : ℚ) * (6 / 5) / (M : ℚ)|
      ≤ |(v : ℚ) * (6 / 5) / (M : ℚ)| / 2 ^ 23 := by
  have e12 : (1.2 : ℚ) = 6 / 5 := by norm_num
  have h0 : |roundDouble 1.2 - 6 / 5| ≤ |(6 / 5 : ℚ)| / 2 ^ 53 := by
    rw [e12]; exact roundToPrecision_err 53 _
  have ha : |(v : ℚ) * roundDouble 1.2 - (v : ℚ) * (6 / 5)|
      ≤ 1 / 2 ^ 53 * |(v : ℚ) * (6 / 5)| := by
    rw [← mul_sub, abs_mul, abs_mul]
    calc |(v : ℚ)| * |roundDouble 1.2 - 6 / 5| ≤ |(v : ℚ)| * (|(6 / 5 : ℚ)| / 2 ^ 53) :=
          mul_le_mul_of_nonneg_left h0 (abs_nonneg _)
      _ = 1 / 2 ^ 53 * (|(v : ℚ)| * |(6 / 5 : ℚ)|) := by ring
  have hb1 : |roundDouble ((v : ℚ) * roundDouble 1.2) - (v : ℚ) * roundDouble 1.2|
      ≤ 1 / 2 ^ 53 * |(v : ℚ) * roundDouble 1.2| := by
    have := roundToPrecision_err 53 ((v : ℚ) * roundDouble 1.2)
    calc _ ≤ |(v : ℚ) * roundDouble 1.2| / 2 ^ 53 := this
      _ = _ := by ring
  have hb := rounding_compose _ _ _ _ _ (by positivity) ha hb1
  have hc : |roundDouble ((v : ℚ) * roundDouble 1.2) / (M : ℚ) - (v : ℚ) * (6 / 5) / (M : ℚ)|
      ≤ ((1 + 1 / 2 ^ 53) * (1 + 1 / 2 ^ 53) - 1) * |(v : ℚ) * (6 / 5) / (M : ℚ)| := by
    rw [← sub_div, abs_div, abs_div]
    calc _ ≤ _ := div_le_div_of_nonneg_right hb (abs_nonneg (M : ℚ))
      _ = _ := by ring
  have hd1 := roundToPrecision_err 53 (roundDouble ((v : ℚ) * roundDouble 1.2) / (M : ℚ))
  have hd := rounding_compose _ _
    (roundDouble (roundDouble ((v : ℚ) * roundDouble 1.2) / (M : ℚ)))
    _ (1 / 2 ^ 53) (by positivity) hc
    (by calc _ ≤ _ := hd1
          _ = _ := by ring)
  have hg1 := roundToPrecision_err 24
    (roundDouble (roundDouble ((v : ℚ) * roundDouble 1.2) / (M : ℚ)))
  have hg := rounding_compose _ _
    (roundFloat (roundDouble (roundDouble ((v : ℚ) * roundDouble 1.2) / (M : ℚ))))
    _ (1 / 2 ^ 24) (by positivity) hd
    (by calc _ ≤ _ := hg1
          _ = _ := by ring)
  calc _ ≤ _ := hg
    _ ≤ 1 / 2 ^ 23 * |(v : ℚ) * (6 / 5) / (M : ℚ)| :=
        mul_le_mul_of_nonneg_right (by norm_num) (abs_nonneg _)
    _ = _ := by ring

/-- The double nearest to 1.2, and the float sent for volume 128 of 128. -/
theorem gain_at_max_volume :
    roundDouble 1.2 = 5404319552844595 / 4503599627370496 ∧
    roundDouble (roundDouble (((128 : Int) : ℚ) * roundDouble 1.2) / ((128 : Int) : ℚ))
      = 5404319552844595 / 4503599627370496 ∧
    roundFloat (roundDouble (roundDouble (((128 : Int) : ℚ) * roundDouble 1.2) /
      ((128 : Int) : ℚ))) = 5033165 / 4194304 := by
  refine ⟨by decide!, by decide!, by decide!⟩

/-- Counterexample to C5 as stated: with `MIX_MAX_VOLUME` = 128,
`FLUIDSYNTH_SetVolume(128)` sends the gain 5033165/4194304, the float nearest
to 1.2, not the rational 128 * 6/5 / 128 = 6/5; the value before the cast to
`float` is the double 5404319552844595/4503599627370496, not 6/5 either. -/
theorem SetVolume_max_gain_is_not_exact :
    (FLUIDSYNTH_SetVolume 128 FLUIDSYNTH_Music.zeroed 128).2
      = [Call.fluid_synth_set_gain 0 (CDouble.finite (5033165 / 4194304))] ∧
    (FLUIDSYNTH_SetVolume 128 FLUIDSYNTH_Music.zeroed 128).2
      ≠ [Call.fluid_synth_set_gain 0
          (CDouble.finite (((128 : Int) : ℚ) * (6 / 5) / ((128 : Int) : ℚ)))] ∧
    roundDouble (roundDouble (((128 : Int) : ℚ) * roundDouble 1.2) / ((128 : Int) : ℚ))
      ≠ ((128 : Int) : ℚ) * (6 / 5) / ((128 : Int) : ℚ) := by
  have hcalls : (FLUIDSYNTH_SetVolume 128 FLUIDSYNTH_Music.zeroed 128).2
      = [Call.fluid_synth_set_gain 0 (CDouble.finite (5033165 / 4194304))] := by
    simp only [FLUIDSYNTH_SetVolume, FLUIDSYNTH_Music.zeroed]
    rw [if_neg (by decide), gain_at_max_volume.2.2]
  refine ⟨hcalls, ?_, ?_⟩
  · rw [hcalls]
    intro h
    simp only [List.cons.injEq, Call.fluid_synth_set_gain.injEq, CDouble.finite.injEq,
      and_true, true_and] at h
    norm_num at h
  · rw [gain_at_max_volume.2.1]
    norm_num

/-- C5 amended: for every integer `v` and non-zero `MIX_MAX_VOLUME`,
`FLUIDSYNTH_SetVolume(v)` issues exactly one call, the backend set-gain on the
session's synth, whose argument is `v * 1.2 / MIX_MAX_VOLUME` evaluated in
`double` and cast to `float`; that argument is within a relative error of
`2 ^ (-23)` of the rational `v * 6/5 / MIX_MAX_VOLUME`; afterwards
`FLUIDSYNTH_GetVolume()` is `v`; volume 0 sends gain 0, and with
`MIX_MAX_VOLUME` = 128 volume 128 sends 5033165/4194304, the float nearest to
6/5. -/
theorem SetVolume_gain (MIX_MAX_VOLUME : Int) (music : FLUIDSYNTH_Music) (v : Int)
    (hmax : MIX_MAX_VOLUME ≠ 0) :
    (FLUIDSYNTH_SetVolume MIX_MAX_VOLUME music v).2
      = [Call.fluid_synth_set_gain music.synth
          (CDouble.finite (roundFloat (roundDouble
            (roundDouble ((v : ℚ) * roundDouble 1.2) / (MIX_MAX_VOLUME : ℚ)))))] ∧
    |roundFloat (roundDouble (roundDouble ((v : ℚ) * roundDouble 1.2) / (MIX_MAX_VOLUME : ℚ)))
        - (v : ℚ) * (6 / 5) / (MIX_MAX_VOLUME : ℚ)|
      ≤ |(v : ℚ) * (6 / 5) / (MIX_MAX_VOLUME : ℚ)| / 2 ^ 23 ∧
    FLUIDSYNTH_GetVolume (FLUIDSYNTH_SetVolume MIX_MAX_VOLUME music v).1 = v ∧
    (FLUIDSYNTH_SetVolume MIX_MAX_VOLUME music 0).2
      = [Call.fluid_synth_set_gain music.synth (CDouble.finite 0)] ∧
    (FLUIDSYNTH_SetVolume 128 music 128).2
      = [Call.fluid_synth_set_gain music.synth (CDouble.finite (5033165 / 4194304))] := by
  refine ⟨?_, gain_rounding_err MIX_MAX_VOLUME v, rfl, ?_, ?_⟩
  · simp only [FLUIDSYNTH_SetVolume]
    rw [if_neg hmax]
  · simp only [FLUIDSYNTH_SetVolume]
    rw [if_neg hmax]
    simp [roundDouble, roundFloat, roundToPrecision]
  · simp only [FLUIDSYNTH_SetVolume]
    rw [if_neg (by decide), gain_at_max_volume.2.2]

/-- Witness for `SetVolume_gain`: `MIX_MAX_VOLUME` = 128 and volume 64; the
gain sent is within `2 ^ (-23)` of 64 * 6/5 / 128 = 3/5. -/
theorem SetVolume_gain_witness :
    (128 : Int) ≠ 0 ∧
    |roundFloat (roundDouble (roundDouble (((64 : Int) : ℚ) * roundDouble 1.2) /
          ((128 : Int) : ℚ))) - ((64 : Int) : ℚ) * (6 / 5) / ((128 : Int) : ℚ)|
      ≤ |((64 : Int) : ℚ) * (6 / 5) / ((128 : Int) : ℚ)| / 2 ^ 23 ∧
    FLUIDSYNTH_GetVolume (FLUIDSYNTH_SetVolume 128 FLUIDSYNTH_Music.zeroed 64).1 = 64 ∧
    (FLUIDSYNTH_SetVolume 128 FLUIDSYNTH_Music.zeroed 0).2
      = [Call.fluid_synth_set_gain 0 (CDouble.finite 0)] :=
  ⟨by decide,
   (SetVolume_gain 128 FLUIDSYNTH_Music.zeroed 64 (by decide)).2.1,
   (SetVolume_gain 128 FLUIDSYNTH_Music.zeroed 64 (by decide)).2.2.1,
   (SetVolume_gain 128 FLUIDSYNTH_Music.zeroed 64 (by decide)).2.2.2.1⟩

/-- C8: for every channel and data bytes `msb`, `lsb` (values of `uint8_t`),
`rtPitchBend` issues exactly one call, the backend pitch bend on the session's
synth with that channel and the value `(msb << 7) | lsb`; when `msb` and `lsb`
are at most 127 that value is `msb * 128 + lsb` and is at most 16383. -/
theorem rtPitchBend_value (seqi : FLUIDSYNTH_Music) (channel msb lsb : Nat)
    (hc : channel < 256) (hm : msb < 256) (hl : lsb < 256) :
    rtPitchBend seqi channel msb lsb
      = [Call.fluid_synth_pitch_bend seqi.synth channel ((msb <<< 7) ||| lsb)] ∧
    (msb < 128 → lsb < 128 →
      pitchBendValue msb lsb = msb * 128 + lsb ∧ pitchBendValue msb lsb ≤ 16383) := by
  have e1 : toUint8 channel = channel := Nat.mod_eq_of_lt hc
  have e2 : toUint8 msb = msb := Nat.mod_eq_of_lt hm
  have e3 : toUint8 lsb = lsb := Nat.mod_eq_of_lt hl
  refine ⟨by simp [rtPitchBend, pitchBendValue, e1, e2, e3], ?_⟩
  intro hm7 hl7
  have hv : pitchBendValue msb lsb = msb * 128 + lsb := by
    simp only [pitchBendValue, e2, e3]
    rw [Nat.shiftLeft_eq, Nat.mul_comm]
    exact (Nat.mul_add_lt_is_or (show lsb < 2 ^ 7 by simpa using hl7) msb).symm ▸
      (by ring)
  exact ⟨hv, by omega⟩

/-- Witness for `rtPitchBend_value`: the centre position, `msb` 64 and `lsb`
0 on channel 3, is the value 8192. -/
theorem rtPitchBend_value_witness :
    rtPitchBend FLUIDSYNTH_Music.zeroed 3 64 0 = [Call.fluid_synth_pitch_bend 0 3 8192] ∧
    pitchBendValue 64 0 = 8192 :=
  ⟨(rtPitchBend_value FLUIDSYNTH_Music.zeroed 3 64 0 (by decide) (by decide) (by decide)).1,
   ((rtPitchBend_value FLUIDSYNTH_Music.zeroed 3 64 0 (by decide) (by decide) (by decide)).2
      (by decide) (by decide)).1⟩

/-! ## Theorems: instrument banks -/

/-- With `fluidsynth_load_soundfont` as the callback, the enumerator succeeds
exactly when at least one path is configured. -/
theorem EachSoundFont_load_soundfont (sfload : String → Int) (synth : Nat)
    (paths : List String) :
    (Mix_EachSoundFont (fluidsynth_load_soundfont sfload synth) paths).1
      = if paths = [] then 0 else 1 := by
  cases paths with
  | nil => rfl
  | cons p ps => simp [Mix_EachSoundFont, fluidsynth_load_soundfont]

/-- Counterexample to C6 as stated: three paths are configured, the backend
fails to load every one of them (`fluid_synth_sfload` answers -1), every other
stage of the load succeeds, and `FLUIDSYNTH_LoadMusic` returns a session. -/
theorem LoadMusic_succeeds_with_no_valid_bank :
    (∀ p ∈ ["a.sf2", "b.sf2", "c.sf2"], (fun _ : String => (-1 : Int)) p < 0) ∧
    (FLUIDSYNTH_LoadMusic
      (sampleLoadEnv ["a.sf2", "b.sf2", "c.sf2"] (fun _ => -1)) 9).1.isSome = true := by
  refine ⟨fun p _ => (by decide : (-1 : Int) < 0), ?_⟩
  simp [FLUIDSYNTH_LoadMusic, sampleLoadEnv, EachSoundFont_load_soundfont]

/-- C6 amended: whatever the backend answers to the load-instrument-bank calls,
the bank-loading stage of `FLUIDSYNTH_LoadMusic` (the enumerator run with
`fluidsynth_load_soundfont`) succeeds exactly when at least one path is
configured; so when the allocations, the settings and the synth are obtained,
the load fails for an empty path list, and, when the later stages succeed too,
returns a session for every non-empty path list. -/
theorem LoadMusic_bank_stage (env : LoadEnv) (src : Nat)
    (hcalloc : env.calloc ≠ 0) (hmalloc : env.malloc ≠ 0)
    (hsettings : env.new_fluid_settings ≠ 0) (hsynth : env.new_fluid_synth ≠ 0) :
    (Mix_EachSoundFont (fluidsynth_load_soundfont env.sfload env.new_fluid_synth)
        env.soundfonts).1 = (if env.soundfonts = [] then 0 else 1) ∧
    (env.soundfonts = [] → (FLUIDSYNTH_LoadMusic env src).1 = none) ∧
    (env.soundfonts ≠ [] → env.midi_seq_init_interface ≠ 0 → env.loadFile ≠ 0 →
      env.openData = 0 → env.newAudioStream ≠ 0 →
      (FLUIDSYNTH_LoadMusic env src).1.isSome = true) := by
  refine ⟨EachSoundFont_load_soundfont _ _ _, ?_, ?_⟩
  · intro hnil
    simp [FLUIDSYNTH_LoadMusic, EachSoundFont_load_soundfont, hcalloc, hmalloc, hsettings,
      hsynth, hnil]
  · intro hne hplayer hfile hopen hstream
    simp [FLUIDSYNTH_LoadMusic, EachSoundFont_load_soundfont, hcalloc, hmalloc, hsettings,
      hsynth, hne, hplayer, hfile, hopen, hstream]

/-- Witness for `LoadMusic_bank_stage`: three configured paths of which the
backend loads only the second; the load returns a session. -/
theorem LoadMusic_bank_stage_witness :
    (FLUIDSYNTH_LoadMusic
      (sampleLoadEnv ["a.sf2", "b.sf2", "c.sf2"] (fun p => if p = "b.sf2" then 1 else -1))
      9).1.isSome = true :=
  (LoadMusic_bank_stage
    (sampleLoadEnv ["a.sf2", "b.sf2", "c.sf2"] (fun p => if p = "b.sf2" then 1 else -1)) 9
    (by decide) (by decide) (by decide) (by decide)).2.2
    (by simp [sampleLoadEnv]) (by decide) (by decide) (by decide) (by decide)

/-! ## Theorems: the library reference count -/

/-- Resolving symbols never touches the reference count. -/
theorem loadFunctions_loaded (env : LoaderEnv) (syms : List String) (st : fluidsynth_loader) :
    (loadFunctions env syms st).2.1.loaded = st.loaded := by
  induction syms generalizing st with
  | nil => rfl
  | cons f fs ih =>
    simp only [loadFunctions]
    split_ifs with h
    · rw [ih]
      unfold FUNCTION_LOADER
      split_ifs <;> rfl
    · unfold FUNCTION_LOADER
      split_ifs <;> rfl

/-- Symbol resolution fails only in the dynamic build, and only when some
symbol is not found. -/
theorem loadFunctions_fails (env : LoaderEnv) (syms : List String) (st : fluidsynth_loader)
    (h : (loadFunctions env syms st).1 = false) :
    env.dynamic = true ∧ ∃ f ∈ syms, env.loadFunction f = false := by
  induction syms generalizing st with
  | nil => simp [loadFunctions] at h
  | cons f fs ih =>
    simp only [loadFunctions] at h
    split_ifs at h with h1
    · obtain ⟨hd, g, hg, hgf⟩ := ih _ h
      exact ⟨hd, g, List.mem_cons_of_mem _ hg, hgf⟩
    · unfold FUNCTION_LOADER at h1
      split_ifs at h1 with hd hf
      · simp at h1
      · exact ⟨hd, f, List.mem_cons_self _ _, by simpa using hf⟩
      · simp at h1

/-- Within the range of `int`, `wrapInt` is the identity. -/
theorem wrapInt_of_range (x : Int) (hlo : INT_MIN ≤ x) (hhi : x ≤ INT_MAX) : wrapInt x = x := by
  unfold INT_MIN at hlo
  unfold INT_MAX at hhi
  unfold wrapInt
  omega

/-- A `FUNCTION_LOADER` line never changes the library handle. -/
theorem FUNCTION_LOADER_handle (env : LoaderEnv) (f : String) (st : fluidsynth_loader) :
    (FUNCTION_LOADER env f st).2.1.handle = st.handle := by
  unfold FUNCTION_LOADER
  split_ifs <;> rfl

/-- Symbol resolution succeeds in the static build, and in the dynamic build
when every symbol is found. -/
theorem loadFunctions_succeeds (env : LoaderEnv) (syms : List String) (st : fluidsynth_loader)
    (h : env.dynamic = true → ∀ f ∈ syms, env.loadFunction f = true) :
    (loadFunctions env syms st).1 = true := by
  induction syms generalizing st with
  | nil => rfl
  | cons f fs ih =>
    have hf : (FUNCTION_LOADER env f st).1 = true := by
      unfold FUNCTION_LOADER
      by_cases hd : env.dynamic = true
      · simp [hd, h hd f (List.mem_cons_self _ _)]
      · simp [hd]
    simp only [loadFunctions, hf, if_true]
    exact ih _ (fun hd g hg => h hd g (List.mem_cons_of_mem _ hg))

/-- A symbol resolution that fails ends by unloading the library. -/
theorem loadFunctions_fails_unloads (env : LoaderEnv) (syms : List String)
    (st : fluidsynth_loader) (h : (loadFunctions env syms st).1 = false) :
    (loadFunctions env syms st).2.2.getLast? = some (Call.SDL_UnloadObject st.handle) := by
  induction syms generalizing st with
  | nil => simp [loadFunctions] at h
  | cons f fs ih =>
    simp only [loadFunctions] at h ⊢
    split_ifs at h ⊢ with h1
    · have hrec := ih _ h
      rw [FUNCTION_LOADER_handle] at hrec
      simp only [List.getLast?_append, hrec]
      rfl
    · unfold FUNCTION_LOADER at h1 ⊢
      split_ifs at h1 ⊢ with hd hf
      · simp at h1
      · simp
      · simp at h1

/-- A symbol resolution that succeeds never unloads the library. -/
theorem loadFunctions_succeeds_no_unload (env : LoaderEnv) (syms : List String)
    (st : fluidsynth_loader) (h : (loadFunctions env syms st).1 = true) (handle : Nat) :
    Call.SDL_UnloadObject handle ∉ (loadFunctions env syms st).2.2 := by
  induction syms generalizing st with
  | nil => simp [loadFunctions]
  | cons f fs ih =>
    simp only [loadFunctions] at h ⊢
    split_ifs at h ⊢ with h1
    · have hrec := ih _ h
      have hhead : Call.SDL_UnloadObject handle ∉ (FUNCTION_LOADER env f st).2.2 := by
        unfold FUNCTION_LOADER at h1 ⊢
        split_ifs at h1 ⊢ <;> simp_all
      simp only [List.mem_append, not_or]
      exact ⟨hhead, hrec⟩

/-- In the dynamic build, symbol resolution fails as soon as one of the
symbols is not found. -/
theorem loadFunctions_fails_of_missing (env : LoaderEnv) (f : String)
    (hd : env.dynamic = true) (hff : env.loadFunction f = false) (syms : List String) :
    ∀ st : fluidsynth_loader, f ∈ syms → (loadFunctions env syms st).1 = false := by
  induction syms with
  | nil => intro st hmem; simp at hmem
  | cons g gs ih =>
    intro st hmem
    simp only [loadFunctions]
    split_ifs with h1
    · rcases List.mem_cons.mp hmem with rfl | hin
      · unfold FUNCTION_LOADER at h1
        simp [hd, hff] at h1
      · exact ih _ hin
    · rfl

/-- The condition under which `FLUIDSYNTH_Load` fails: the dynamically resolved
build, a count of 0, and a library or a symbol that cannot be resolved. -/
theorem Load_fails_of (env : LoaderEnv) (st : fluidsynth_loader)
    (hd : env.dynamic = true) (h0 : st.loaded = 0)
    (hres : env.loadObject = 0 ∨ ∃ f ∈ loaderSymbols, env.loadFunction f = false) :
    (FLUIDSYNTH_Load env st).1 = -1 ∧
    (FLUIDSYNTH_Load env st).2.1.loaded = st.loaded ∧
    (env.loadObject = 0 → (FLUIDSYNTH_Load env st).2.2 = [Call.SDL_LoadObject]) ∧
    (env.loadObject ≠ 0 →
      (FLUIDSYNTH_Load env st).2.2.getLast? = some (Call.SDL_UnloadObject env.loadObject)) := by
  unfold FLUIDSYNTH_Load
  rw [if_pos h0]
  by_cases hobj : env.loadObject = 0
  · rw [if_pos ⟨hd, hobj⟩]
    exact ⟨rfl, rfl, fun _ => rfl, fun hne => absurd hobj hne⟩
  · rw [if_neg (fun hc => hobj hc.2)]
    have hsym : ∃ f ∈ loaderSymbols, env.loadFunction f = false := by
      rcases hres with h | h
      · exact absurd h hobj
      · exact h
    obtain ⟨f, hf, hff⟩ := hsym
    have hfail := loadFunctions_fails_of_missing env f hd hff loaderSymbols
      { st with handle := env.loadObject } hf
    have hlast := loadFunctions_fails_unloads env loaderSymbols
      { st with handle := env.loadObject } hfail
    have hcnt := loadFunctions_loaded env loaderSymbols { st with handle := env.loadObject }
    simp only [hd, if_true, hfail, Bool.false_eq_true, if_false]
    refine ⟨trivial, hcnt, fun h => absurd h hobj, fun _ => ?_⟩
    simp only [List.getLast?_append, hlast]
    rfl

/-- Outside the failure condition `FLUIDSYNTH_Load` succeeds: it returns 0,
increments the count and issues no unload. -/
theorem Load_succeeds_of (env : LoaderEnv) (st : fluidsynth_loader)
    (h : ¬ (env.dynamic = true ∧ st.loaded = 0 ∧
      (env.loadObject = 0 ∨ ∃ f ∈ loaderSymbols, env.loadFunction f = false))) :
    (FLUIDSYNTH_Load env st).1 = 0 ∧
    (FLUIDSYNTH_Load env st).2.1.loaded = wrapInt (st.loaded + 1) ∧
    ∀ handle, Call.SDL_UnloadObject handle ∉ (FLUIDSYNTH_Load env st).2.2 := by
  unfold FLUIDSYNTH_Load
  by_cases h0 : st.loaded = 0
  · rw [if_pos h0]
    have hobj : ¬ (env.dynamic = true ∧ env.loadObject = 0) :=
      fun hc => h ⟨hc.1, h0, Or.inl hc.2⟩
    rw [if_neg hobj]
    have hst1 : (if env.dynamic = true then { st with handle := env.loadObject } else st).loaded
        = st.loaded := by
      split_ifs <;> rfl
    have hok : (loadFunctions env loaderSymbols
        (if env.dynamic = true then { st with handle := env.loadObject } else st)).1 = true := by
      apply loadFunctions_succeeds
      intro hd f hf
      by_contra hc
      exact h ⟨hd, h0, Or.inr ⟨f, hf, by simpa using hc⟩⟩
    have hno := loadFunctions_succeeds_no_unload env loaderSymbols _ hok
    simp only [hok, if_true, loadFunctions_loaded, hst1, true_and]
    intro handle
    simp only [List.mem_append, not_or]
    refine ⟨?_, hno handle⟩
    split_ifs <;> simp
  · rw [if_neg h0]
    exact ⟨rfl, rfl, fun _ => by simp⟩

/-- Counterexample to C7 as stated: in the dynamically resolved build, a first
call to `FLUIDSYNTH_Load` for which `SDL_LoadObject` fails, or for which a
symbol is missing, returns -1 and leaves the count at 0 instead of raising it
to 1; in the second case the last call of the failed load unloads the library
it had just opened. -/
theorem Load_failure_does_not_count :
    FLUIDSYNTH_Load { dynamic := true, loadObject := 0, loadFunction := fun _ => true }
        fluidsynth_loader.initial
      = (-1, fluidsynth_loader.initial, [Call.SDL_LoadObject]) ∧
    (FLUIDSYNTH_Load
      { dynamic := true, loadObject := 5, loadFunction := fun f => f != "fluid_synth_sysex" }
      fluidsynth_loader.initial).1 = -1 ∧
    (FLUIDSYNTH_Load
      { dynamic := true, loadObject := 5, loadFunction := fun f => f != "fluid_synth_sysex" }
      fluidsynth_loader.initial).2.1.loaded = 0 ∧
    (FLUIDSYNTH_Load
      { dynamic := true, loadObject := 5, loadFunction := fun f => f != "fluid_synth_sysex" }
      fluidsynth_loader.initial).2.2.getLast? = some (Call.SDL_UnloadObject 5) := by
  refine ⟨by decide, by decide, by decide, by decide⟩

/-- C7 amended: on a count within `0 .. INT_MAX - 1`, a call to
`FLUIDSYNTH_Load` returns 0 or -1. It returns -1 exactly when the build is the
dynamically resolved one, the count is 0 and the library or one of its symbols
cannot be resolved; the count is then unchanged, a failed library lookup
issues no other call, and a failed symbol lookup ends by unloading the library
just opened. In every other case it returns 0, the count has grown by exactly
one, and no unload is issued. `FLUIDSYNTH_Unload` on a positive count lowers it
by exactly one, and it unloads the library exactly when the build is dynamic
and the count goes from 1 to 0. -/
theorem Load_Unload_refcount (env : LoaderEnv) (st : fluidsynth_loader)
    (hlo : 0 ≤ st.loaded) (hhi : st.loaded < INT_MAX) :
    ((FLUIDSYNTH_Load env st).1 = 0 ∨ (FLUIDSYNTH_Load env st).1 = -1) ∧
    ((FLUIDSYNTH_Load env st).1 = -1 ↔
      (env.dynamic = true ∧ st.loaded = 0 ∧
        (env.loadObject = 0 ∨ ∃ f ∈ loaderSymbols, env.loadFunction f = false))) ∧
    ((FLUIDSYNTH_Load env st).1 = -1 →
      (FLUIDSYNTH_Load env st).2.1.loaded = st.loaded ∧
      (env.loadObject = 0 → (FLUIDSYNTH_Load env st).2.2 = [Call.SDL_LoadObject]) ∧
      (env.loadObject ≠ 0 →
        (FLUIDSYNTH_Load env st).2.2.getLast?
          = some (Call.SDL_UnloadObject env.loadObject))) ∧
    ((FLUIDSYNTH_Load env st).1 = 0 →
      (FLUIDSYNTH_Load env st).2.1.loaded = st.loaded + 1 ∧
      ∀ handle, Call.SDL_UnloadObject handle ∉ (FLUIDSYNTH_Load env st).2.2) ∧
    (0 < st.loaded → (FLUIDSYNTH_Unload env st).1.loaded = st.loaded - 1) ∧
    (FLUIDSYNTH_Unload env st).2
      = (if st.loaded = 1 ∧ env.dynamic = true then [Call.SDL_UnloadObject st.handle]
         else []) := by
  have hw1 : wrapInt (st.loaded + 1) = st.loaded + 1 :=
    wrapInt_of_range _ (by unfold INT_MIN; omega) (by unfold INT_MAX at *; omega)
  have hw2 : 0 < st.loaded → wrapInt (st.loaded - 1) = st.loaded - 1 := fun h =>
    wrapInt_of_range _ (by unfold INT_MIN; omega) (by unfold INT_MAX at *; omega)
  by_cases hF : env.dynamic = true ∧ st.loaded = 0 ∧
      (env.loadObject = 0 ∨ ∃ f ∈ loaderSymbols, env.loadFunction f = false)
  · have hfail := Load_fails_of env st hF.1 hF.2.1 hF.2.2
    refine ⟨Or.inr hfail.1, ⟨fun _ => hF, fun _ => hfail.1⟩, fun _ => hfail.2, ?_, ?_, ?_⟩
    · intro h0
      rw [hfail.1] at h0
      exact absurd h0 (by decide)
    · intro hpos
      unfold FLUIDSYNTH_Unload
      rw [if_neg (by omega)]
      exact hw2 hpos
    · unfold FLUIDSYNTH_Unload
      split_ifs <;> simp_all
  · have hok := Load_succeeds_of env st hF
    refine ⟨Or.inl hok.1, ⟨fun h1 => ?_, fun h => absurd h hF⟩, fun h1 => ?_, ?_, ?_, ?_⟩
    · rw [hok.1] at h1
      exact absurd h1 (by decide)
    · rw [hok.1] at h1
      exact absurd h1 (by decide)
    · intro _
      exact ⟨by rw [hok.2.1, hw1], hok.2.2⟩
    · intro hpos
      unfold FLUIDSYNTH_Unload
      rw [if_neg (by omega)]
      exact hw2 hpos
    · unfold FLUIDSYNTH_Unload
      split_ifs <;> simp_all

/-- Witness for `Load_Unload_refcount`: in the dynamic build, a first load with
every symbol present takes the count from 0 to 1, and a first load with the
symbol `fluid_synth_sysex` missing returns -1, leaves the count at 0 and ends
by unloading library 5. -/
theorem Load_Unload_refcount_witness :
    (FLUIDSYNTH_Load { dynamic := true, loadObject := 5, loadFunction := fun _ => true }
      fluidsynth_loader.initial).2.1.loaded = fluidsynth_loader.initial.loaded + 1 ∧
    (FLUIDSYNTH_Load
      { dynamic := true, loadObject := 5, loadFunction := fun f => f != "fluid_synth_sysex" }
      fluidsynth_loader.initial).1 = -1 ∧
    ((FLUIDSYNTH_Load
      { dynamic := true, loadObject := 5, loadFunction := fun f => f != "fluid_synth_sysex" }
      fluidsynth_loader.initial).2.1.loaded = fluidsynth_loader.initial.loaded ∧
    ((5 : Nat) = 0 → (FLUIDSYNTH_Load
      { dynamic := true, loadObject := 5, loadFunction := fun f => f != "fluid_synth_sysex" }
      fluidsynth_loader.initial).2.2 = [Call.SDL_LoadObject]) ∧
    ((5 : Nat) ≠ 0 → (FLUIDSYNTH_Load
      { dynamic := true, loadObject := 5, loadFunction := fun f => f != "fluid_synth_sysex" }
      fluidsynth_loader.initial).2.2.getLast? = some (Call.SDL_UnloadObject 5))) :=
  ⟨((Load_Unload_refcount { dynamic := true, loadObject := 5, loadFunction := fun _ => true }
      fluidsynth_loader.initial (by decide) (by decide)).2.2.2.1 (by decide)).1,
   (Load_Unload_refcount
      { dynamic := true, loadObject := 5, loadFunction := fun f => f != "fluid_synth_sysex" }
      fluidsynth_loader.initial (by decide) (by decide)).2.1.2
      ⟨rfl, rfl, Or.inr ⟨"fluid_synth_sysex", by decide, by decide⟩⟩,
   (Load_Unload_refcount
      { dynamic := true, loadObject := 5, loadFunction := fun f => f != "fluid_synth_sysex" }
      fluidsynth_loader.initial (by decide) (by decide)).2.2.1 (by decide)⟩

/-! ## Theorems: teardown -/

/-- C11 (the code departs from the claim): the only `SDL_free` that
`FLUIDSYNTH_Delete` issues is the one on the session object itself, so the
rendering buffer is never released. On the fully constructed session that
`FLUIDSYNTH_LoadMusic` returns (session at address 1, rendering buffer at
address 2) the calls are, in order: the settings lookup, then the release of
the sequencer, the metadata, the synth, the settings, the resampling stream
and the session object; address 2 is not freed. -/
theorem Delete_never_frees_buffer :
    (∀ (settings context : Nat) (music : FLUIDSYNTH_Music) (ptr : Nat),
      Call.SDL_free ptr ∈ FLUIDSYNTH_Delete settings context music ↔ ptr = context) ∧
    (FLUIDSYNTH_LoadMusic (sampleLoadEnv ["a.sf2"] (fun _ => 1)) 9).1.map
        (fun music => (music.buffer, FLUIDSYNTH_Delete 3 1 music))
      = some (2, [Call.fluid_synth_get_settings 4,
                  Call.midi_seq_free 5,
                  Call.meta_tags_clear,
                  Call.delete_fluid_synth 4,
                  Call.delete_fluid_settings 3,
                  Call.SDL_FreeAudioStream 7,
                  Call.SDL_free 1]) ∧
    Call.SDL_malloc 16384 ∈ (FLUIDSYNTH_LoadMusic (sampleLoadEnv ["a.sf2"] (fun _ => 1)) 9).2 := by
  refine ⟨?_, ?_, ?_⟩
  · intro settings context music ptr
    unfold FLUIDSYNTH_Delete
    by_cases h : music.stream = 0 <;> simp [h]
  · simp [FLUIDSYNTH_LoadMusic, sampleLoadEnv, EachSoundFont_load_soundfont, FLUIDSYNTH_Delete]
  · simp [FLUIDSYNTH_LoadMusic, sampleLoadEnv, EachSoundFont_load_soundfont, init_interface,
      AUDIO_S16SYS, AUDIO_S16LSB, AUDIO_U8, AUDIO_S8, sizeof_Sint16]

end FluidLite
